import Mathlib

/-!
Shallow embedding of `src/loggy/__init__.py` (the `pyloggy` repository):
ANSI color constants (`bcolors`), the frozen dataclass `LogStyle`, the
preset table `STYLES`, style resolution (`get_style`), and the `Log`
class with its five emission methods.  Streams are modelled by the result
of their `isatty()` query (which may raise); the observable output of a call is
the list of `(stream, text)` write events it performs.
-/

/-- ANSI escape: class `bcolors`, field `OKBLUE`. -/
def bcolors.OKBLUE : String := "\x1b[94m"

/-- ANSI escape: class `bcolors`, field `OKGREEN`. -/
def bcolors.OKGREEN : String := "\x1b[92m"

/-- ANSI escape: class `bcolors`, field `FAIL`. -/
def bcolors.FAIL : String := "\x1b[91m"

/-- ANSI escape: class `bcolors`, field `ENDC` (reset). -/
def bcolors.ENDC : String := "\x1b[0m"

/-- ANSI escape: class `bcolors`, field `WARNING_ORANGE`. -/
def bcolors.WARNING_ORANGE : String := "\x1b[38;5;208m"

/-- ANSI escape: class `bcolors`, field `DIM`. -/
def bcolors.DIM : String := "\x1b[2m"

/-- ANSI escape: class `bcolors`, field `BOLD`. -/
def bcolors.BOLD : String := "\x1b[1m"

/-- ANSI escape: class `bcolors`, field `CYAN`. -/
def bcolors.CYAN : String := "\x1b[96m"

/-- ANSI escape: class `bcolors`, field `GRAY`. -/
def bcolors.GRAY : String := "\x1b[90m"

/-- Python `str.isspace` on a single character (the set `str.strip()`
removes): ASCII whitespace, the C0 separators, NEL, NBSP, and the
Unicode space characters. -/
def pyIsSpace (c : Char) : Bool :=
  (0x9 ≤ c.val && c.val ≤ 0xD) || c.val = 0x20 ||
  (0x1C ≤ c.val && c.val ≤ 0x1F) || c.val = 0x85 || c.val = 0xA0 ||
  c.val = 0x1680 || (0x2000 ≤ c.val && c.val ≤ 0x200A) ||
  c.val = 0x2028 || c.val = 0x2029 || c.val = 0x202F ||
  c.val = 0x205F || c.val = 0x3000

/-- Python `str.strip()`: drop leading and trailing whitespace. -/
def pyStrip (s : String) : String :=
  String.mk (((s.data.dropWhile pyIsSpace).reverse.dropWhile pyIsSpace).reverse)

/-- Python `str.lower` on one character (the ASCII range, which is all the
truthy-value comparison in `__init__` can be affected by). -/
def pyLowerChar (c : Char) : Char :=
  if 65 ≤ c.val ∧ c.val ≤ 90 then Char.ofNat (c.toNat + 32) else c

/-- Python `str.lower()`. -/
def pyLower (s : String) : String :=
  String.mk (s.data.map pyLowerChar)

/-- An output sink, reduced to what the code observes of it: the result of
its `isatty()` query, which either returns a Bool or raises. -/
structure Sink where
  isattyResult : Except Unit Bool

/-- `_is_tty(stream)`: `stream.isatty()`, any exception swallowed to `False`. -/
def _is_tty (stream : Sink) : Bool :=
  match stream.isattyResult with
  | Except.ok b => b
  | Except.error _ => false

/-- The frozen dataclass `LogStyle` with its field defaults.  The source
file is double-encoded on disk, so the default and preset icon strings
are the literal mojibake characters that the Python literals hold. -/
structure LogStyle where
  log_label : String := "[Log]"
  ok_label : String := "[OK]"
  info_label : String := "[Info]"
  warn_label : String := "[Warn]"
  err_label : String := "[Error]"
  log_icon : String := "â€¢"
  ok_icon : String := "âœ…"
  info_icon : String := "â„¹ï¸"
  warn_icon : String := "âš ï¸"
  err_icon : String := "âŒ"
  log_color : String := bcolors.DIM
  ok_color : String := bcolors.OKGREEN
  info_color : String := bcolors.OKBLUE
  warn_color : String := bcolors.WARNING_ORANGE
  err_color : String := bcolors.FAIL
deriving DecidableEq

/-- `STYLES["default"] = LogStyle()`. -/
def styleDefault : LogStyle := {}

/-- `STYLES["classic"]`. -/
def styleClassic : LogStyle :=
  { log_icon := "", ok_icon := "", info_icon := "", warn_icon := "", err_icon := ""
    log_label := "[LOG]", ok_label := "[OK]", info_label := "[INFO]"
    warn_label := "[WARN]", err_label := "[ERR]" }

/-- `STYLES["minimal"]`. -/
def styleMinimal : LogStyle :=
  { log_icon := "â€¢", ok_icon := "âœ“"
    info_icon := "i", warn_icon := "!", err_icon := "x"
    log_label := "", ok_label := "", info_label := "", warn_label := "", err_label := ""
    log_color := bcolors.GRAY, info_color := bcolors.GRAY
    warn_color := bcolors.WARNING_ORANGE, err_color := bcolors.FAIL }

/-- `STYLES["cli"]`. -/
def styleCli : LogStyle :=
  { log_icon := "â€º", ok_icon := "âœ”"
    info_icon := "â„¹", warn_icon := "â–²"
    err_icon := "âœ–"
    log_label := "[step]", ok_label := "[ok]", info_label := "[info]"
    warn_label := "[warn]", err_label := "[error]"
    log_color := bcolors.DIM, ok_color := bcolors.OKGREEN, info_color := bcolors.CYAN
    warn_color := bcolors.WARNING_ORANGE, err_color := bcolors.FAIL }

/-- `STYLES["emoji"]`. -/
def styleEmoji : LogStyle :=
  { log_icon := "ðŸ“", ok_icon := "âœ…"
    info_icon := "ðŸ§ ", warn_icon := "âš ï¸"
    err_icon := "ðŸ’¥"
    log_label := "[Log]", ok_label := "[OK]", info_label := "[Info]"
    warn_label := "[Warn]", err_label := "[Error]" }

/-- `STYLES["plain"]`: empty icons, empty colors, default labels. -/
def stylePlain : LogStyle :=
  { log_icon := "", ok_icon := "", info_icon := "", warn_icon := "", err_icon := ""
    log_color := "", ok_color := "", info_color := "", warn_color := "", err_color := "" }

/-- The built-in preset dict `STYLES`, as an association list. -/
def STYLES : List (String × LogStyle) :=
  [("default", styleDefault), ("classic", styleClassic), ("minimal", styleMinimal),
   ("cli", styleCli), ("emoji", styleEmoji), ("plain", stylePlain)]

/-- The `**overrides` keyword arguments accepted by `get_style`: a partial
set of the fifteen `LogStyle` fields. -/
structure StyleOverrides where
  log_label : Option String := none
  ok_label : Option String := none
  info_label : Option String := none
  warn_label : Option String := none
  err_label : Option String := none
  log_icon : Option String := none
  ok_icon : Option String := none
  info_icon : Option String := none
  warn_icon : Option String := none
  err_icon : Option String := none
  log_color : Option String := none
  ok_color : Option String := none
  info_color : Option String := none
  warn_color : Option String := none
  err_color : Option String := none
deriving DecidableEq

/-- `dataclasses.replace(base, **o)`: a new record equal to `base` except on
the supplied fields; `base` itself is untouched (the dataclass is frozen). -/
def replaceStyle (base : LogStyle) (o : StyleOverrides) : LogStyle :=
  { log_label := o.log_label.getD base.log_label
    ok_label := o.ok_label.getD base.ok_label
    info_label := o.info_label.getD base.info_label
    warn_label := o.warn_label.getD base.warn_label
    err_label := o.err_label.getD base.err_label
    log_icon := o.log_icon.getD base.log_icon
    ok_icon := o.ok_icon.getD base.ok_icon
    info_icon := o.info_icon.getD base.info_icon
    warn_icon := o.warn_icon.getD base.warn_icon
    err_icon := o.err_icon.getD base.err_icon
    log_color := o.log_color.getD base.log_color
    ok_color := o.ok_color.getD base.ok_color
    info_color := o.info_color.getD base.info_color
    warn_color := o.warn_color.getD base.warn_color
    err_color := o.err_color.getD base.err_color }

/-- `get_style(name, **overrides)`: `STYLES.get(name, STYLES["default"])`,
then `replace(base, **overrides) if overrides else base`. -/
def get_style (name : String) (overrides : StyleOverrides) : LogStyle :=
  let base := (STYLES.lookup name).getD styleDefault
  if overrides = ({} : StyleOverrides) then base else replaceStyle base overrides

/-- The `style` constructor argument: a name, a `LogStyle` value, or `None`. -/
inductive StyleArg where
  | name (s : String)
  | style (st : LogStyle)
  | noStyle
deriving DecidableEq

/-- Which of the two configured sinks a write goes to. -/
inductive StreamId where
  | outS
  | errS
deriving DecidableEq

/-- The `Log` object after `__init__`: the resolved configuration. -/
structure Log where
  debug : Bool
  style : LogStyle
  use_color : Bool
  use_icons : Bool
  out : Sink
  err_stream : Sink

/-- `Log.__init__`.  `env` models `os.environ` (`os.getenv` returns the
value of the variable or the supplied default `""`).  `verbose` is accepted and
unused, as in the source. -/
def Log.init (env : String → Option String) (debug verbose use_color use_icons : Bool)
    (style : StyleArg) (stream_out stream_err : Sink) : Log :=
  { debug := debug ||
      (["1", "true", "yes"].contains (pyLower ((env "DEBUG_LOGS").getD "")))
    style :=
      match style with
      | StyleArg.name s => get_style s {}
      | StyleArg.style st => st
      | StyleArg.noStyle => styleDefault
    use_color := use_color && _is_tty stream_out
    use_icons := use_icons && _is_tty stream_out
    out := stream_out
    err_stream := stream_err }

/-- `Log._fmt(*msg)`: message parts (already rendered to strings, as the
source does with `str(m)`) joined by a single space. -/
def Log._fmt (_self : Log) (msg : List String) : String :=
  " ".intercalate msg

/-- `Log._prefix(icon, label)` (named `pfx` here): strip the label; if
icons are on and the icon is non-empty, the icon and stripped label joined
by a space, the result stripped; otherwise the stripped label (`label or ""`). -/
def Log.pfx (self : Log) (icon label : String) : String :=
  let label := pyStrip label
  if self.use_icons = true ∧ icon ≠ "" then pyStrip (icon ++ " " ++ label)
  else if label = "" then "" else label

/-- `Log._write(stream, prefix, color, *msg)`: build the line, wrap it in
the color code and reset when color is on and non-empty, append a newline,
write once and flush.  The returned list is the sequence of write events. -/
def Log._write (self : Log) (dest : StreamId) (pfx color : String)
    (msg : List String) : List (StreamId × String) :=
  let text := Log._fmt self msg
  let line := if pfx ≠ "" then pfx ++ " " ++ text else text
  if self.use_color = true ∧ color ≠ "" then
    [(dest, color ++ line ++ bcolors.ENDC ++ "\n")]
  else
    [(dest, line ++ "\n")]

/-- `Log.log(*msg)`: gated on `self.debug`; goes to the out stream. -/
def Log.log (self : Log) (msg : List String) : List (StreamId × String) :=
  if self.debug = true then
    Log._write self StreamId.outS (Log.pfx self self.style.log_icon self.style.log_label)
      self.style.log_color msg
  else []

/-- `Log.ok(*msg)`: always emitted; goes to the out stream. -/
def Log.ok (self : Log) (msg : List String) : List (StreamId × String) :=
  Log._write self StreamId.outS (Log.pfx self self.style.ok_icon self.style.ok_label)
    self.style.ok_color msg

/-- `Log.info(*msg)`: gated on `self.debug`; goes to the out stream. -/
def Log.info (self : Log) (msg : List String) : List (StreamId × String) :=
  if self.debug = true then
    Log._write self StreamId.outS (Log.pfx self self.style.info_icon self.style.info_label)
      self.style.info_color msg
  else []

/-- `Log.warn(*msg)`: always emitted; goes to the out stream. -/
def Log.warn (self : Log) (msg : List String) : List (StreamId × String) :=
  Log._write self StreamId.outS (Log.pfx self self.style.warn_icon self.style.warn_label)
    self.style.warn_color msg

/-- `Log.err(*msg)`: always emitted; goes to the err stream. -/
def Log.err (self : Log) (msg : List String) : List (StreamId × String) :=
  Log._write self StreamId.errS (Log.pfx self self.style.err_icon self.style.err_label)
    self.style.err_color msg

/-- A sink whose `isatty()` returns `True`. -/
def ttyStream : Sink := ⟨Except.ok true⟩

/-- A sink whose `isatty()` returns `False`. -/
def pipeStream : Sink := ⟨Except.ok false⟩

/-- A sink whose `isatty()` raises. -/
def raisingStream : Sink := ⟨Except.error ()⟩

/-!  Helper lemmas shared by several claim theorems. -/

/-- The line `_write` builds before color wrapping. -/
def lineOf (self : Log) (p : String) (msg : List String) : String :=
  if p ≠ "" then p ++ " " ++ Log._fmt self msg else Log._fmt self msg

/-- Closed form of `_write`: one write event, the (possibly color-wrapped)
line followed by a newline. -/
theorem write_eq (self : Log) (dest : StreamId) (p c : String)
    (msg : List String) :
    Log._write self dest p c msg =
      [(dest, (if self.use_color = true ∧ c ≠ "" then
                 c ++ lineOf self p msg ++ bcolors.ENDC
               else lineOf self p msg) ++ "\n")] := by
  unfold Log._write lineOf
  by_cases h : self.use_color = true ∧ c ≠ "" <;> simp [h]

/-- Every call to `_write` performs exactly one write, of a string that is
some line followed by a newline. -/
theorem write_one_line (self : Log) (dest : StreamId) (p c : String)
    (msg : List String) :
    ∃ t, Log._write self dest p c msg = [(dest, t ++ "\n")] :=
  ⟨_, write_eq self dest p c msg⟩

/-- When the color argument is empty, `_write` never wraps: the written
string is the bare line and a newline. -/
theorem write_no_color (self : Log) (dest : StreamId) (p : String)
    (msg : List String) :
    Log._write self dest p "" msg = [(dest, lineOf self p msg ++ "\n")] := by
  rw [write_eq]
  simp

/-- When `use_color` is off, `_write` never wraps, whatever the color. -/
theorem write_color_off (self : Log) (h : self.use_color = false)
    (dest : StreamId) (p c : String) (msg : List String) :
    Log._write self dest p c msg = [(dest, lineOf self p msg ++ "\n")] := by
  rw [write_eq]
  simp [h]

/-- C1: for every Logger and message list, when `debug` is false, `log` and
`info` write nothing to either stream, while `ok`, `warn`, `err` each write
exactly one newline-terminated line; when `debug` is true all five kinds
write exactly one such line (`log`, `ok`, `info`, `warn` to the out stream,
`err` to the err stream). -/
theorem C1_debug_gating (st : LogStyle) (uc ui : Bool) (so se : Sink)
    (msg : List String) :
    (Log.log ⟨false, st, uc, ui, so, se⟩ msg = [] ∧
     Log.info ⟨false, st, uc, ui, so, se⟩ msg = [] ∧
     (∃ t, Log.ok ⟨false, st, uc, ui, so, se⟩ msg = [(StreamId.outS, t ++ "\n")]) ∧
     (∃ t, Log.warn ⟨false, st, uc, ui, so, se⟩ msg = [(StreamId.outS, t ++ "\n")]) ∧
     (∃ t, Log.err ⟨false, st, uc, ui, so, se⟩ msg = [(StreamId.errS, t ++ "\n")])) ∧
    ((∃ t, Log.log ⟨true, st, uc, ui, so, se⟩ msg = [(StreamId.outS, t ++ "\n")]) ∧
     (∃ t, Log.info ⟨true, st, uc, ui, so, se⟩ msg = [(StreamId.outS, t ++ "\n")]) ∧
     (∃ t, Log.ok ⟨true, st, uc, ui, so, se⟩ msg = [(StreamId.outS, t ++ "\n")]) ∧
     (∃ t, Log.warn ⟨true, st, uc, ui, so, se⟩ msg = [(StreamId.outS, t ++ "\n")]) ∧
     (∃ t, Log.err ⟨true, st, uc, ui, so, se⟩ msg = [(StreamId.errS, t ++ "\n")])) := by
  refine ⟨⟨?_, ?_, ?_, ?_, ?_⟩, ⟨?_, ?_, ?_, ?_, ?_⟩⟩
  · simp [Log.log]
  · simp [Log.info]
  · exact write_one_line _ _ _ _ _
  · exact write_one_line _ _ _ _ _
  · exact write_one_line _ _ _ _ _
  · simpa [Log.log] using write_one_line _ _ _ _ _
  · simpa [Log.info] using write_one_line _ _ _ _ _
  · exact write_one_line _ _ _ _ _
  · exact write_one_line _ _ _ _ _
  · exact write_one_line _ _ _ _ _

/-- C9: with a non-empty prefix and zero message arguments, the built line
is the prefix followed by one trailing space (the joining space is inserted
even though the joined message is empty), and the write is that line —
color-wrapped exactly when color is enabled and non-empty — plus a newline. -/
theorem C9_empty_message_trailing_space (self : Log) (dest : StreamId)
    (p c : String) (hp : p ≠ "") :
    Log._write self dest p c [] =
      [(dest, (if self.use_color = true ∧ c ≠ "" then
                 c ++ (p ++ " ") ++ bcolors.ENDC
               else p ++ " ") ++ "\n")] := by
  rw [write_eq]
  have hnil : Log._fmt self [] = "" := rfl
  have hline : lineOf self p [] = p ++ " " := by
    unfold lineOf
    rw [hnil]
    simp [hp]
  rw [hline]

/-- C9 witness at a concrete logger, prefix `"[OK]"` and no message parts. -/
theorem C9_empty_message_trailing_space_witness :
    Log._write ⟨false, styleDefault, false, false, ttyStream, ttyStream⟩
        StreamId.outS "[OK]" "" [] = [(StreamId.outS, "[OK] " ++ "\n")] := by
  have h := C9_empty_message_trailing_space
      ⟨false, styleDefault, false, false, ttyStream, ttyStream⟩
      StreamId.outS "[OK]" "" (by decide)
  simpa using h

/-- C10: the bytes `err` writes do not depend on the interactivity of
the err stream: two Loggers constructed identically except for their err
sinks produce identical write events (the flags come from the out stream). -/
theorem C10_err_noninterference (env : String → Option String)
    (debug verbose use_color use_icons : Bool) (style : StyleArg)
    (stream_out se1 se2 : Sink) (msg : List String) :
    Log.err (Log.init env debug verbose use_color use_icons style stream_out se1) msg =
    Log.err (Log.init env debug verbose use_color use_icons style stream_out se2) msg := rfl

/-- C3: style resolution never fails: a registered name resolves to the
fixed Style of that preset, any unregistered name falls back to the `"default"`
preset, an absent style argument yields the `"default"` preset, and a
`LogStyle` value passed directly is stored as-is. -/
theorem C3_style_resolution :
    (∀ n st, STYLES.lookup n = some st → get_style n {} = st) ∧
    (∀ n, STYLES.lookup n = none → get_style n {} = styleDefault) ∧
    (∀ env d v uc ui so se,
      (Log.init env d v uc ui StyleArg.noStyle so se).style = styleDefault ∧
      (∀ st, (Log.init env d v uc ui (StyleArg.style st) so se).style = st) ∧
      (∀ n, (Log.init env d v uc ui (StyleArg.name n) so se).style = get_style n {})) := by
  refine ⟨?_, ?_, ?_⟩
  · intro n st h
    unfold get_style
    rw [h]
    simp
  · intro n h
    unfold get_style
    rw [h]
    simp
  · intro env d v uc ui so se
    exact ⟨rfl, fun st => rfl, fun n => rfl⟩

/-- C3 witness: a registered name resolves to its preset and an unknown
name degrades to the default preset. -/
theorem C3_style_resolution_witness :
    get_style "minimal" {} = styleMinimal ∧ get_style "nope" {} = styleDefault :=
  ⟨C3_style_resolution.1 "minimal" styleMinimal (by decide),
   C3_style_resolution.2.1 "nope" (by decide)⟩

/-- C4: resolving `"minimal"` with the single override `err_label = "BOOM"`
yields a Style whose `err_label` is `"BOOM"` and whose other fourteen
fields equal those of the registered `minimal` preset; the registry still maps
`"minimal"` to the unchanged preset (the frozen base is never mutated —
`replace` builds a new record). -/
theorem C4_override_composition :
    (get_style "minimal" { err_label := some "BOOM" }).err_label = "BOOM" ∧
    (get_style "minimal" { err_label := some "BOOM" }).log_label = styleMinimal.log_label ∧
    (get_style "minimal" { err_label := some "BOOM" }).ok_label = styleMinimal.ok_label ∧
    (get_style "minimal" { err_label := some "BOOM" }).info_label = styleMinimal.info_label ∧
    (get_style "minimal" { err_label := some "BOOM" }).warn_label = styleMinimal.warn_label ∧
    (get_style "minimal" { err_label := some "BOOM" }).log_icon = styleMinimal.log_icon ∧
    (get_style "minimal" { err_label := some "BOOM" }).ok_icon = styleMinimal.ok_icon ∧
    (get_style "minimal" { err_label := some "BOOM" }).info_icon = styleMinimal.info_icon ∧
    (get_style "minimal" { err_label := some "BOOM" }).warn_icon = styleMinimal.warn_icon ∧
    (get_style "minimal" { err_label := some "BOOM" }).err_icon = styleMinimal.err_icon ∧
    (get_style "minimal" { err_label := some "BOOM" }).log_color = styleMinimal.log_color ∧
    (get_style "minimal" { err_label := some "BOOM" }).ok_color = styleMinimal.ok_color ∧
    (get_style "minimal" { err_label := some "BOOM" }).info_color = styleMinimal.info_color ∧
    (get_style "minimal" { err_label := some "BOOM" }).warn_color = styleMinimal.warn_color ∧
    (get_style "minimal" { err_label := some "BOOM" }).err_color = styleMinimal.err_color ∧
    STYLES.lookup "minimal" = some styleMinimal := by
  decide

/-- C5 counterexample: the claim requires the `classic` preset to have all
five labels empty and all five icons non-empty, but in the code `classic`
has non-empty labels (`log_label = "[LOG]"`) and empty icons. -/
theorem C5_counterexample :
    (get_style "classic" {}).log_label = "[LOG]" ∧
    (get_style "classic" {}).log_icon = "" ∧
    ¬ ((get_style "classic" {}).log_label = "" ∧ (get_style "classic" {}).log_icon ≠ "") := by
  decide

/-- C5 amended: each of the six preset names is registered with a complete
Style; `plain` has all five icons and colors empty and all five labels
non-empty; `minimal` has all five labels empty and all five icons
non-empty; `classic` has all five icons empty and all five labels
non-empty (the claim swapped the icons and labels of `classic`). -/
theorem C5_amended_presets :
    STYLES.lookup "default" = some styleDefault ∧
    STYLES.lookup "classic" = some styleClassic ∧
    STYLES.lookup "minimal" = some styleMinimal ∧
    STYLES.lookup "cli" = some styleCli ∧
    STYLES.lookup "emoji" = some styleEmoji ∧
    STYLES.lookup "plain" = some stylePlain ∧
    (stylePlain.log_icon = "" ∧ stylePlain.ok_icon = "" ∧ stylePlain.info_icon = "" ∧
     stylePlain.warn_icon = "" ∧ stylePlain.err_icon = "" ∧
     stylePlain.log_color = "" ∧ stylePlain.ok_color = "" ∧ stylePlain.info_color = "" ∧
     stylePlain.warn_color = "" ∧ stylePlain.err_color = "" ∧
     stylePlain.log_label ≠ "" ∧ stylePlain.ok_label ≠ "" ∧ stylePlain.info_label ≠ "" ∧
     stylePlain.warn_label ≠ "" ∧ stylePlain.err_label ≠ "") ∧
    (styleMinimal.log_label = "" ∧ styleMinimal.ok_label = "" ∧ styleMinimal.info_label = "" ∧
     styleMinimal.warn_label = "" ∧ styleMinimal.err_label = "" ∧
     styleMinimal.log_icon ≠ "" ∧ styleMinimal.ok_icon ≠ "" ∧ styleMinimal.info_icon ≠ "" ∧
     styleMinimal.warn_icon ≠ "" ∧ styleMinimal.err_icon ≠ "") ∧
    (styleClassic.log_icon = "" ∧ styleClassic.ok_icon = "" ∧ styleClassic.info_icon = "" ∧
     styleClassic.warn_icon = "" ∧ styleClassic.err_icon = "" ∧
     styleClassic.log_label ≠ "" ∧ styleClassic.ok_label ≠ "" ∧ styleClassic.info_label ≠ "" ∧
     styleClassic.warn_label ≠ "" ∧ styleClassic.err_label ≠ "") := by
  decide

/-- C7: with a non-interactive out sink, construction yields
`use_color = false` and `use_icons = false` whatever was requested, every
write is the bare (never color-wrapped) line plus newline, and an
`isatty()` query that raises counts as non-interactive rather than
propagating. -/
theorem C7_tty_suppression (env : String → Option String)
    (d v uc ui : Bool) (sty : StyleArg) (so se : Sink)
    (h : _is_tty so = false) :
    (Log.init env d v uc ui sty so se).use_color = false ∧
    (Log.init env d v uc ui sty so se).use_icons = false ∧
    (∀ dest p c msg,
      Log._write (Log.init env d v uc ui sty so se) dest p c msg =
        [(dest, lineOf (Log.init env d v uc ui sty so se) p msg ++ "\n")]) ∧
    (∀ s : Sink, s.isattyResult = Except.error () → _is_tty s = false) := by
  have hc : (Log.init env d v uc ui sty so se).use_color = false := by
    simp [Log.init, h]
  have hi : (Log.init env d v uc ui sty so se).use_icons = false := by
    simp [Log.init, h]
  refine ⟨hc, hi, ?_, ?_⟩
  · intro dest p c msg
    exact write_color_off _ hc dest p c msg
  · intro s hs
    unfold _is_tty
    rw [hs]

/-- C7 witness: a sink whose `isatty()` raises disables color. -/
theorem C7_tty_suppression_witness :
    (Log.init (fun _ => none) false false true true StyleArg.noStyle
        raisingStream ttyStream).use_color = false :=
  (C7_tty_suppression (fun _ => none) false false true true StyleArg.noStyle
      raisingStream ttyStream rfl).1

/-- C8: `debug` on the constructed Logger is the `debug` flag OR-ed with
the environment override: it is true exactly when the flag is true or
`DEBUG_LOGS` is set to a value whose lowercase form is `"1"`, `"true"` or
`"yes"`; when the variable is absent, or set to any other value, `debug`
equals the flag alone. -/
theorem C8_debug_env (env : String → Option String)
    (d v uc ui : Bool) (sty : StyleArg) (so se : Sink) :
    ((Log.init env d v uc ui sty so se).debug = true ↔
      (d = true ∨ ∃ s, env "DEBUG_LOGS" = some s ∧
        pyLower s ∈ (["1", "true", "yes"] : List String))) ∧
    (env "DEBUG_LOGS" = none → (Log.init env d v uc ui sty so se).debug = d) ∧
    (∀ s, env "DEBUG_LOGS" = some s →
      pyLower s ∉ (["1", "true", "yes"] : List String) →
      (Log.init env d v uc ui sty so se).debug = d) := by
  refine ⟨?_, ?_, ?_⟩
  · unfold Log.init
    simp only [Bool.or_eq_true]
    constructor
    · rintro (hd | hm)
      · exact Or.inl hd
      · right
        rcases he : env "DEBUG_LOGS" with _ | s
        · rw [he] at hm
          exact absurd hm (by decide)
        · refine ⟨s, rfl, ?_⟩
          rw [he] at hm
          simpa using hm
    · rintro (hd | ⟨s, hs, hmem⟩)
      · exact Or.inl hd
      · right
        rw [hs]
        simpa using hmem
  · intro he
    unfold Log.init
    rw [he]
    simp
    intro hm
    exact absurd hm (by decide)
  · intro s hs hmem
    unfold Log.init
    rw [hs]
    simp [hmem]

/-- C8 witness: `DEBUG_LOGS=TRUE` forces debug on with the flag false, and
a non-truthy value leaves debug equal to the flag. -/
theorem C8_debug_env_witness :
    (Log.init (fun _ => some "TRUE") false false true true StyleArg.noStyle
        ttyStream ttyStream).debug = true ∧
    (Log.init (fun _ => some "no") false false true true StyleArg.noStyle
        ttyStream ttyStream).debug = false :=
  ⟨(C8_debug_env (fun _ => some "TRUE") false false true true StyleArg.noStyle
        ttyStream ttyStream).1.mpr (Or.inr ⟨"TRUE", rfl, by decide⟩),
   (C8_debug_env (fun _ => some "no") false false true true StyleArg.noStyle
        ttyStream ttyStream).2.2 "no" rfl (by decide)⟩

/-- Prefix for a kind whose icon is empty: the stripped label (or empty). -/
theorem pfx_no_icon (self : Log) (label : String) :
    Log.pfx self "" label = if pyStrip label = "" then "" else pyStrip label := by
  unfold Log.pfx
  simp

/-- Prefix for an empty icon and an already-stripped non-empty label. -/
theorem pfx_no_icon_clean (self : Log) (label : String)
    (h : pyStrip label = label) (h2 : label ≠ "") :
    Log.pfx self "" label = label := by
  rw [pfx_no_icon, h]
  simp [h2]

/-- C2 counterexample: the general prefix formula of the claim — `"<icon> <label>"`
trimmed, with the raw label — does not match the code, which strips the
label before composing: at icon `"!"` and label `" [warn]"` the code gives
`"! [warn]"` while the formula of the claim gives `"!  [warn]"`. -/
theorem C2_counterexample :
    ¬ (∀ (l : Log) (icon label : String),
        Log.pfx l icon label =
          if l.use_icons = true ∧ icon ≠ "" then pyStrip (icon ++ " " ++ label)
          else pyStrip label) := by
  intro h
  have hc := h ⟨false, styleDefault, false, true, ttyStream, ttyStream⟩ "!" " [warn]"
  exact absurd hc (by decide)

/-- C2 amended: the prefix is `"<icon> <stripped label>"` trimmed when
`use_icons` is true and the icon is non-empty, otherwise the stripped
label; a non-empty prefix is joined to the space-joined message by a
single space (inside the color wrap when color is on).  Concretely,
`warn("disk", "full")` with icon `"!"`, label `"[warn]"` and icons on
yields `"! [warn] disk full"`, and with icons off `"[warn] disk full"`. -/
theorem C2_amended_prefix_composition :
    (∀ (l : Log) (icon label : String),
      Log.pfx l icon label =
        if l.use_icons = true ∧ icon ≠ "" then pyStrip (icon ++ " " ++ pyStrip label)
        else pyStrip label) ∧
    (∀ (l : Log) (dest : StreamId) (p c : String) (msg : List String), p ≠ "" →
      Log._write l dest p c msg =
        [(dest, (if l.use_color = true ∧ c ≠ "" then
                   c ++ (p ++ " " ++ Log._fmt l msg) ++ bcolors.ENDC
                 else p ++ " " ++ Log._fmt l msg) ++ "\n")]) ∧
    Log.warn ⟨false, { styleDefault with warn_icon := "!", warn_label := "[warn]" },
        false, true, ttyStream, ttyStream⟩ ["disk", "full"] =
      [(StreamId.outS, "! [warn] disk full\n")] ∧
    Log.warn ⟨false, { styleDefault with warn_icon := "!", warn_label := "[warn]" },
        false, false, ttyStream, ttyStream⟩ ["disk", "full"] =
      [(StreamId.outS, "[warn] disk full\n")] := by
  refine ⟨?_, ?_, by decide, by decide⟩
  · intro l icon label
    unfold Log.pfx
    by_cases h : l.use_icons = true ∧ icon ≠ ""
    · simp [h]
    · simp only [h, if_neg, if_false]
      by_cases h2 : pyStrip label = ""
      · simp [h2]
      · simp [h2]
  · intro l dest p c msg hp
    rw [write_eq]
    have hl : lineOf l p msg = p ++ " " ++ Log._fmt l msg := by
      unfold lineOf
      simp [hp]
    rw [hl]

/-- C2 amended witness: the joining rule applied at a concrete prefix and
message. -/
theorem C2_amended_prefix_composition_witness :
    Log._write ⟨false, styleDefault, false, false, ttyStream, ttyStream⟩
        StreamId.outS "[x]" "" ["m"] = [(StreamId.outS, "[x] m\n")] := by
  have h := C2_amended_prefix_composition.2.1
      ⟨false, styleDefault, false, false, ttyStream, ttyStream⟩
      StreamId.outS "[x]" "" ["m"] (by decide)
  exact h.trans (by decide)

/-- C6 counterexample: the claim says a `plain`-preset Logger emits exactly
the joined message, but `plain` keeps the default non-empty labels, so
`ok("hi")` writes `"[OK] hi\n"`, not `"hi\n"`. -/
theorem C6_counterexample :
    Log.ok ⟨false, stylePlain, true, true, ttyStream, ttyStream⟩ ["hi"] =
      [(StreamId.outS, "[OK] hi\n")] ∧
    Log.ok ⟨false, stylePlain, true, true, ttyStream, ttyStream⟩ ["hi"] ≠
      [(StreamId.outS, "hi\n")] := by
  decide

/-- C6 amended: a `plain`-preset Logger emits, for every message list and
whatever the `use_color`/`use_icons` flags, exactly the label of the kind, one
space, the space-joined message and a newline — never any color escape
(all `plain` colors are empty), and `log`/`info` only when debug is on. -/
theorem C6_amended_plain (d uc ui : Bool) (so se : Sink) (msg : List String) :
    Log.ok ⟨d, stylePlain, uc, ui, so, se⟩ msg =
      [(StreamId.outS, ("[OK]" ++ " " ++ " ".intercalate msg) ++ "\n")] ∧
    Log.warn ⟨d, stylePlain, uc, ui, so, se⟩ msg =
      [(StreamId.outS, ("[Warn]" ++ " " ++ " ".intercalate msg) ++ "\n")] ∧
    Log.err ⟨d, stylePlain, uc, ui, so, se⟩ msg =
      [(StreamId.errS, ("[Error]" ++ " " ++ " ".intercalate msg) ++ "\n")] ∧
    Log.log ⟨true, stylePlain, uc, ui, so, se⟩ msg =
      [(StreamId.outS, ("[Log]" ++ " " ++ " ".intercalate msg) ++ "\n")] ∧
    Log.info ⟨true, stylePlain, uc, ui, so, se⟩ msg =
      [(StreamId.outS, ("[Info]" ++ " " ++ " ".intercalate msg) ++ "\n")] ∧
    Log.log ⟨false, stylePlain, uc, ui, so, se⟩ msg = [] ∧
    Log.info ⟨false, stylePlain, uc, ui, so, se⟩ msg = [] := by
  have step : ∀ (l : Log) (dest : StreamId) (label : String),
      pyStrip label = label → label ≠ "" →
      Log._write l dest (Log.pfx l "" label) "" msg =
        [(dest, (label ++ " " ++ " ".intercalate msg) ++ "\n")] := by
    intro l dest label hs hne
    rw [pfx_no_icon_clean l label hs hne, write_no_color]
    have hl : lineOf l label msg = label ++ " " ++ " ".intercalate msg := by
      unfold lineOf Log._fmt
      simp [hne]
    rw [hl]
  refine ⟨?_, ?_, ?_, ?_, ?_, ?_, ?_⟩
  · exact step ⟨d, stylePlain, uc, ui, so, se⟩ StreamId.outS "[OK]" rfl (by decide)
  · exact step ⟨d, stylePlain, uc, ui, so, se⟩ StreamId.outS "[Warn]" rfl (by decide)
  · exact step ⟨d, stylePlain, uc, ui, so, se⟩ StreamId.errS "[Error]" rfl (by decide)
  · exact step ⟨true, stylePlain, uc, ui, so, se⟩ StreamId.outS "[Log]" rfl (by decide)
  · exact step ⟨true, stylePlain, uc, ui, so, se⟩ StreamId.outS "[Info]" rfl (by decide)
  · rfl
  · rfl
